import Mathlib

/-!
Verification of the `adk-mcp` local MCP server (`src/local_mcp`): a shallow
embedding of the Python modules `server.py`, `db_utils.py` and `create_db.py`
into Lean, together with proofs of the specification's claims about them.

Python values that the server serializes to JSON are modelled by `PyVal`
(Python `dict`s preserve insertion order, so objects are ordered key/value
lists).  `json.dumps` is modelled twice, once with Python's default compact
separators and once with `indent=2`, exactly as the two call sites in
`server.py` use it.  The SQLite backend is external to the repository; it is
modelled by `SqliteDB` with the semantics of the statements the source
actually issues, and each `db_utils` function additionally reports how many
connections it opened and closed so that resource claims can be stated.
-/

namespace AdkMcp

/-- JSON-serializable Python values.  Objects keep the insertion order of the
Python `dict` they model. -/
inductive PyVal where
  | bool (b : Bool)
  | int (n : Int)
  | str (s : String)
  | list (xs : List PyVal)
  | obj (kvs : List (String × PyVal))
  deriving Repr

/-- JSON string escaping as performed by Python's `json.dumps` for the
characters that occur in this server's payloads. -/
def escapeChar (c : Char) : String :=
  if c = '"' then "\\\""
  else if c = '\\' then "\\\\"
  else if c = '\n' then "\\n"
  else if c = '\t' then "\\t"
  else if c = '\r' then "\\r"
  else String.singleton c

def escapeString (s : String) : String :=
  s.foldl (fun acc c => acc ++ escapeChar c) ""

def pyQuote (s : String) : String :=
  "\"" ++ escapeString s ++ "\""

mutual

/-- `json.dumps(v)` with Python's default separators `", "` and `": "`. -/
def pyDumps : PyVal → String
  | .bool true => "true"
  | .bool false => "false"
  | .int n => toString n
  | .str s => pyQuote s
  | .list xs => "[" ++ pyDumpsItems xs ++ "]"
  | .obj kvs => "\x7b" ++ pyDumpsPairs kvs ++ "\x7d"

def pyDumpsItems : List PyVal → String
  | [] => ""
  | [x] => pyDumps x
  | x :: y :: rest => pyDumps x ++ ", " ++ pyDumpsItems (y :: rest)

def pyDumpsPairs : List (String × PyVal) → String
  | [] => ""
  | [(k, v)] => pyQuote k ++ ": " ++ pyDumps v
  | (k, v) :: p :: rest => pyQuote k ++ ": " ++ pyDumps v ++ ", " ++ pyDumpsPairs (p :: rest)

end

/-- `n` spaces, for JSON indentation. -/
def spaces (n : Nat) : String :=
  String.mk (List.replicate n ' ')

mutual

/-- `json.dumps(v, indent=2)`: Python pretty-printing with two-space
indentation, item separator `","` followed by a newline, key separator
`": "`.  The first argument is the current indentation level. -/
def pyDumpsInd : Nat → PyVal → String
  | _, .bool true => "true"
  | _, .bool false => "false"
  | _, .int n => toString n
  | _, .str s => pyQuote s
  | _, .list [] => "[]"
  | k, .list (x :: xs) =>
      "[\n" ++ pyDumpsIndItems (k + 2) (x :: xs) ++ "\n" ++ spaces k ++ "]"
  | _, .obj [] => "\x7b\x7d"
  | k, .obj (p :: ps) =>
      "\x7b\n" ++ pyDumpsIndPairs (k + 2) (p :: ps) ++ "\n" ++ spaces k ++ "\x7d"

def pyDumpsIndItems : Nat → List PyVal → String
  | _, [] => ""
  | k, [x] => spaces k ++ pyDumpsInd k x
  | k, x :: y :: rest =>
      spaces k ++ pyDumpsInd k x ++ ",\n" ++ pyDumpsIndItems k (y :: rest)

def pyDumpsIndPairs : Nat → List (String × PyVal) → String
  | _, [] => ""
  | k, [(key, v)] => spaces k ++ pyQuote key ++ ": " ++ pyDumpsInd k v
  | k, (key, v) :: p :: rest =>
      spaces k ++ pyQuote key ++ ": " ++ pyDumpsInd k v ++ ",\n" ++
        pyDumpsIndPairs k (p :: rest)

end

/-- `json.dumps(v, indent=2)` at top level. -/
def pyDumpsIndent2 (v : PyVal) : String :=
  pyDumpsInd 0 v

/-- `mcp.types.TextContent(type="text", text=...)`. -/
structure TextContent where
  type : String
  text : String
  deriving Repr, DecidableEq

/-- The observable behaviour of `await adk_tool_instance.run_async(...)`:
either a returned Python value or a raised exception carrying the string
`str(e)`. -/
def Handler : Type :=
  PyVal → Except String PyVal

/-- The server's tool registry `ADK_DB_TOOLS`: a name-keyed, insertion-ordered
mapping to handlers. -/
def Registry : Type :=
  List (String × Handler)

/-- The error payload built in the `except Exception` branch of
`call_mcp_tool`. -/
def execErrorPayload (name cause : String) : PyVal :=
  .obj [("success", .bool false),
        ("message", .str ("Failed to execute tool '" ++ name ++ "': " ++ cause))]

/-- The error payload built in the unknown-tool branch of `call_mcp_tool`. -/
def notImplementedPayload (name : String) : PyVal :=
  .obj [("success", .bool false),
        ("message", .str ("Tool '" ++ name ++ "' not implemented by this server."))]

/-- `call_mcp_tool` from `server.py`: looks the tool name up in the registry;
on success serializes the handler's response with `indent=2`, on a raised
exception returns the compactly serialized `execErrorPayload`, and for an
unknown name returns the compactly serialized `notImplementedPayload`.
Besides the response it returns the list of handler names that were invoked,
making "no handler is executed" statable. -/
def call_mcp_tool (registry : Registry) (name : String) (arguments : PyVal) :
    List TextContent × List String :=
  match registry.lookup name with
  | some tool =>
    match tool arguments with
    | .ok resp => ([⟨"text", pyDumpsIndent2 resp⟩], [name])
    | .error e => ([⟨"text", pyDumps (execErrorPayload name e)⟩], [name])
  | none => ([⟨"text", pyDumps (notImplementedPayload name)⟩], [])

/-! ## The SQLite backend

The backing store is external to the repository (the `sqlite3` library);
`SqliteDB` models it with the semantics of exactly the statements that
`db_utils.py` issues: `SELECT name FROM sqlite_master`, `PRAGMA table_info`,
`SELECT {cols} FROM {t} [WHERE {cond}]`, `INSERT INTO {t} (...) VALUES (...)`
and `DELETE FROM {t} WHERE {cond}`, where the WHERE clauses in scope are
`column = integer` comparisons.  SQLite's internal bookkeeping tables are
elided. -/

/-- An SQLite storage value (the seeded schema only holds integers and
text). -/
inductive SqlVal where
  | int (n : Int)
  | text (s : String)
  deriving Repr, DecidableEq

/-- A stored row: ordered column/value pairs. -/
abbrev Row : Type := List (String × SqlVal)

/-- A table: name, declared columns (name and type, in declaration order),
rows in insertion order, and the `AUTOINCREMENT` sequence counter. -/
structure Table where
  name : String
  cols : List (String × String)
  rows : List Row
  seq : Nat
  deriving Repr, DecidableEq

/-- The database: tables in creation order. -/
structure SqliteDB where
  tables : List Table
  deriving Repr, DecidableEq

def findTable (db : SqliteDB) (t : String) : Option Table :=
  db.tables.find? (fun tb => tb.name == t)

/-- Split a character list at every occurrence of `c` (like Python's
`split`, keeping empty pieces). -/
def splitOnChar (c : Char) : List Char → List (List Char)
  | [] => [[]]
  | x :: xs =>
    let rest := splitOnChar c xs
    if x = c then [] :: rest
    else
      match rest with
      | r :: rs => (x :: r) :: rs
      | [] => [[x]]

/-- Python's `str.strip()`: remove leading and trailing whitespace. -/
def pyStrip (s : String) : String :=
  String.mk (((s.data.dropWhile Char.isWhitespace).reverse.dropWhile
    Char.isWhitespace).reverse)

/-- Decimal digits to a number, `none` on any non-digit. -/
def digitsToNat (cs : List Char) : Option Nat :=
  match cs with
  | [] => none
  | _ =>
    if cs.all Char.isDigit then
      some (cs.foldl (fun acc c => acc * 10 + (c.toNat - 48)) 0)
    else none

/-- An optionally signed decimal integer literal. -/
def parseIntChars : List Char → Option Int
  | '-' :: rest => (digitsToNat rest).map (fun n => -(n : Int))
  | cs => (digitsToNat cs).map Int.ofNat

/-- SQLite's parse of the WHERE clauses this server sends:
`column = integer-literal`. -/
def parseCond (s : String) : Option (String × Int) :=
  match (splitOnChar '=' s.data).map (fun cs => pyStrip (String.mk cs)) with
  | [col, rhs] =>
    match parseIntChars rhs.data with
    | some n => if col.isEmpty then none else some (col, n)
    | none => none
  | _ => none

/-- Whether a row satisfies a parsed `column = n` condition. -/
def rowMatches (col : String) (v : Int) (r : Row) : Bool :=
  match r.lookup col with
  | some (.int n) => n == v
  | _ => false

/-- SQLite's parse of the column list of a `SELECT`: `*` or comma-separated
column names of the table. -/
def parseColumns (s : String) (tb : Table) : Option (List String) :=
  if pyStrip s = "*" then some (tb.cols.map Prod.fst)
  else
    let names := (splitOnChar ',' s.data).map (fun cs => pyStrip (String.mk cs))
    if names.all (fun c => (tb.cols.map Prod.fst).contains c) && !names.isEmpty
    then some names else none

def sqlValToPy : SqlVal → PyVal
  | .int n => .int n
  | .text s => .str s

/-- Projection of a row onto the selected columns, as the Python `dict(row)`
the source builds. -/
def projectRow (names : List String) (r : Row) : PyVal :=
  .obj (names.map fun c =>
    (c, match r.lookup c with
        | some v => sqlValToPy v
        | none => .int 0))

/-- The SQLite engine's execution of
`SELECT {columns} FROM {t} [WHERE {condition}]`; errors are the engine's
messages. -/
def sqliteSelect (db : SqliteDB) (t columns condition : String) :
    Except String (List PyVal) :=
  match findTable db t with
  | none => .error ("no such table: " ++ t)
  | some tb =>
    match parseColumns columns tb with
    | none => .error ("SELECT column list error near \"" ++ columns ++ "\"")
    | some names =>
      if condition.isEmpty then
        .ok (tb.rows.map (projectRow names))
      else
        match parseCond condition with
        | none => .error ("near \"" ++ condition ++ "\": syntax error")
        | some (col, v) =>
          if (tb.cols.map Prod.fst).contains col then
            .ok ((tb.rows.filter (rowMatches col v)).map (projectRow names))
          else
            .error ("no such column: " ++ col)

/-- The SQLite engine's execution of `DELETE FROM {t} WHERE {condition}`:
the updated database and the deleted-row count. -/
def sqliteDelete (db : SqliteDB) (t condition : String) :
    Except String (SqliteDB × Nat) :=
  match findTable db t with
  | none => .error ("no such table: " ++ t)
  | some tb =>
    match parseCond condition with
    | none => .error ("near \"" ++ condition ++ "\": syntax error")
    | some (col, v) =>
      if (tb.cols.map Prod.fst).contains col then
        let kept := tb.rows.filter (fun r => !rowMatches col v r)
        let removed := tb.rows.length - kept.length
        .ok (⟨db.tables.map fun tb2 =>
                if tb2.name == t then { tb2 with rows := kept } else tb2⟩,
             removed)
      else
        .error ("no such column: " ++ col)

/-- The SQLite engine's execution of
`INSERT INTO {t} ({columns}) VALUES ({placeholders})` with bound values
`data`: errors if the table or a named column is missing, otherwise appends
the row, drawing the `AUTOINCREMENT` id from the sequence counter when `id`
is not supplied, and reports `lastrowid`. -/
def sqliteInsert (db : SqliteDB) (t : String) (data : List (String × SqlVal)) :
    Except String (SqliteDB × Nat) :=
  match findTable db t with
  | none => .error ("no such table: " ++ t)
  | some tb =>
    if data.all (fun kv => (tb.cols.map Prod.fst).contains kv.1) then
      let newId := tb.seq + 1
      let row : Row :=
        if (data.map Prod.fst).contains "id" then data
        else ("id", .int (Int.ofNat newId)) :: data
      .ok (⟨db.tables.map fun tb2 =>
              if tb2.name == t then
                { tb2 with rows := tb2.rows ++ [row], seq := newId }
              else tb2⟩,
           newId)
    else
      .error ("table " ++ t ++ " has no column named " ++
        (match data.find? (fun kv => !(tb.cols.map Prod.fst).contains kv.1) with
         | some kv => kv.1
         | none => ""))

/-! ## `db_utils.py`

Each function is modelled with its exact control flow and returned payloads,
together with the database state after the call and how many connections it
opened and closed, so that mutation-freedom and resource-release claims can
be stated. -/

/-- Outcome of one `db_utils` call: the returned Python value (or the raised
exception's message in `.error`), the database afterwards, and the number of
connections opened and closed during the call. -/
structure DBCall where
  result : Except String PyVal
  db : SqliteDB
  opened : Nat
  closed : Nat
  deriving Repr

/-- `list_db_tables` from `db_utils.py`.  `dummy_param` is accepted but never
read.  `fault` models the `except sqlite3.Error` branch: `some e` means the
`SELECT name FROM sqlite_master` execution raised an `sqlite3.Error` whose
`str` is `e` (e.g. a locked or corrupt database file); that branch returns
the error envelope without reaching the `conn.close()` call. -/
def list_db_tables (dummy_param : String) (fault : Option String)
    (db : SqliteDB) : DBCall :=
  match fault with
  | some e =>
    { result := .ok (.obj [("success", .bool false),
                           ("message", .str ("Error listing tables: " ++ e)),
                           ("tables", .list [])]),
      db := db, opened := 1, closed := 0 }
  | none =>
    { result := .ok (.obj [("success", .bool true),
                           ("message", .str "Tables listed successfully."),
                           ("tables", .list (db.tables.map fun tb => .str tb.name))]),
      db := db, opened := 1, closed := 1 }

/-- `get_table_schema` from `db_utils.py`: runs `PRAGMA table_info`, closes
the connection, then raises `ValueError` if no schema rows came back,
otherwise returns the (non-envelope) `table_name`/`columns` dictionary. -/
def get_table_schema (table_name : String) (db : SqliteDB) : DBCall :=
  let schema_info :=
    match findTable db table_name with
    | some tb => tb.cols
    | none => []
  if schema_info.isEmpty then
    { result := .error ("Table '" ++ table_name ++
        "' not found or no schema information."),
      db := db, opened := 1, closed := 1 }
  else
    { result := .ok (.obj [("table_name", .str table_name),
        ("columns", .list (schema_info.map fun c =>
          .obj [("name", .str c.1), ("type", .str c.2)]))]),
      db := db, opened := 1, closed := 1 }

/-- `query_db_table` from `db_utils.py`: builds the `SELECT`, executes it,
and on an `sqlite3.Error` closes the connection and raises `ValueError`;
on success returns the bare list of row dictionaries. -/
def query_db_table (table_name columns condition : String) (db : SqliteDB) :
    DBCall :=
  match sqliteSelect db table_name columns condition with
  | .ok rows =>
    { result := .ok (.list rows), db := db, opened := 1, closed := 1 }
  | .error e =>
    { result := .error ("Error querying table '" ++ table_name ++ "': " ++ e),
      db := db, opened := 1, closed := 1 }

/-- `insert_data` from `db_utils.py`: refuses an empty `data` mapping before
any connection is opened; otherwise executes the `INSERT` with `try/except`
around it and `finally: conn.close()`. -/
def insert_data (table_name : String) (data : List (String × SqlVal))
    (db : SqliteDB) : DBCall :=
  if data.isEmpty then
    { result := .ok (.obj [("success", .bool false),
        ("message", .str "No data provided for insertion.")]),
      db := db, opened := 0, closed := 0 }
  else
    match sqliteInsert db table_name data with
    | .ok (db2, lastRowId) =>
      { result := .ok (.obj [("success", .bool true),
          ("message", .str ("Data inserted successfully. Row ID: " ++
            toString lastRowId)),
          ("row_id", .int (Int.ofNat lastRowId))]),
        db := db2, opened := 1, closed := 1 }
    | .error e =>
      { result := .ok (.obj [("success", .bool false),
          ("message", .str ("Error inserting data into table '" ++
            table_name ++ "': " ++ e))]),
        db := db, opened := 1, closed := 1 }

/-- The safety-guard message of `delete_data`. -/
def deleteGuardMessage : String :=
  "Deletion condition cannot be empty. This is a safety measure to prevent accidental deletion of all rows."

/-- `delete_data` from `db_utils.py`: the guard
`if not condition or not condition.strip()` refuses a blank condition before
any connection is opened; otherwise executes the `DELETE` with `try/except`
around it and `finally: conn.close()`. -/
def delete_data (table_name condition : String) (db : SqliteDB) : DBCall :=
  if condition.isEmpty || (pyStrip condition).isEmpty then
    { result := .ok (.obj [("success", .bool false),
        ("message", .str deleteGuardMessage)]),
      db := db, opened := 0, closed := 0 }
  else
    match sqliteDelete db table_name condition with
    | .ok (db2, rows_deleted) =>
      { result := .ok (.obj [("success", .bool true),
          ("message", .str (toString rows_deleted ++
            " row(s) deleted successfully from table '" ++ table_name ++ "'.")),
          ("rows_deleted", .int (Int.ofNat rows_deleted))]),
        db := db2, opened := 1, closed := 1 }
    | .error e =>
      { result := .ok (.obj [("success", .bool false),
          ("message", .str ("Error deleting data from table '" ++
            table_name ++ "': " ++ e))]),
        db := db, opened := 1, closed := 1 }

/-! ## `create_db.py` -/

/-- The `users` table as created and seeded by `create_database`. -/
def usersSeeded : Table :=
  { name := "users",
    cols := [("id", "INTEGER"), ("username", "TEXT"), ("email", "TEXT")],
    rows := [
      [("id", .int 1), ("username", .text "user1"), ("email", .text "user1@example.com")],
      [("id", .int 2), ("username", .text "user2"), ("email", .text "user2@example.com")]],
    seq := 2 }

/-- The `todos` table as created and seeded by `create_database`. -/
def todosSeeded : Table :=
  { name := "todos",
    cols := [("id", "INTEGER"), ("user_id", "INTEGER"), ("task", "TEXT"),
             ("completed", "BOOLEAN")],
    rows := [
      [("id", .int 1), ("user_id", .int 1), ("task", .text "Complete MCP project"), ("completed", .int 0)],
      [("id", .int 2), ("user_id", .int 1), ("task", .text "Read about SQL injection"), ("completed", .int 1)],
      [("id", .int 3), ("user_id", .int 2), ("task", .text "Buy groceries"), ("completed", .int 0)]],
    seq := 3 }

/-- `create_database` from `create_db.py`: `none` models a store whose file
does not yet exist (it is then created and seeded with two users and three
todos); `some db` models an existing store, which is returned unchanged. -/
def create_database : Option SqliteDB → SqliteDB
  | some db => db
  | none => ⟨[usersSeeded, todosSeeded]⟩

/-- Row count of a table, for stating seeding facts. -/
def tableRowCount (db : SqliteDB) (t : String) : Option Nat :=
  (findTable db t).map fun tb => tb.rows.length

/-- Number of rows in a query result, when the call returned a list. -/
def resultRowCount : Except String PyVal → Option Nat
  | .ok (.list xs) => some xs.length
  | _ => none

/-! ## Tool discovery (`list_mcp_tools` in `server.py`) -/

/-- An ADK `FunctionTool`, modelled by the field `list_mcp_tools` reads:
its `name`, which `FunctionTool(func=f)` sets to `f.__name__`. -/
structure FunctionTool where
  name : String
  deriving Repr, DecidableEq

/-- An MCP tool descriptor, modelled by the field the discovery claims are
about: its advertised `name` (`adk_to_mcp_tool_type` copies it from the
`FunctionTool`). -/
structure McpTool where
  name : String
  deriving Repr, DecidableEq

def adk_to_mcp_tool_type (t : FunctionTool) : McpTool :=
  ⟨t.name⟩

/-- The server's `ADK_DB_TOOLS` dictionary: keys in the insertion order of
the literal in `server.py`; each `FunctionTool` already carries the wrapped
function's `__name__`. -/
def ADK_DB_TOOLS : List (String × FunctionTool) :=
  [("list_db_tables", ⟨"list_db_tables"⟩),
   ("get_table_schema", ⟨"get_table_schema"⟩),
   ("query_db_table", ⟨"query_db_table"⟩),
   ("insert_data", ⟨"insert_data"⟩),
   ("delete_data", ⟨"delete_data"⟩)]

/-- The fix-up `if not adk_tool_instance.name: adk_tool_instance.name =
tool_name` performed inside the discovery loop. -/
def fixupTool (key : String) (t : FunctionTool) : FunctionTool :=
  if t.name.isEmpty then { t with name := key } else t

/-- `list_mcp_tools` from `server.py`, with the in-place name fix-up made
explicit: returns the advertised descriptors and the registry as it stands
after the call (the source mutates the `FunctionTool`s it fixes up). -/
def list_mcp_tools_st (reg : List (String × FunctionTool)) :
    List McpTool × List (String × FunctionTool) :=
  (reg.map (fun kv => adk_to_mcp_tool_type (fixupTool kv.1 kv.2)),
   reg.map (fun kv => (kv.1, fixupTool kv.1 kv.2)))

/-- The discovery response of this server. -/
def list_mcp_tools : List McpTool :=
  (list_mcp_tools_st ADK_DB_TOOLS).1

/-! ## Fixtures for witnesses and counterexamples -/

/-- A handler that returns normally. -/
def okHandler : Handler :=
  fun _ => .ok (.obj [("success", .bool true), ("message", .str "ok")])

/-- A handler whose execution raises an exception with `str(e) = "boom"`. -/
def failingHandler : Handler :=
  fun _ => .error "boom"

/-- A concrete registry used to instantiate dispatcher theorems. -/
def demoRegistry : Registry :=
  [("list_db_tables", okHandler), ("query_db_table", failingHandler)]

/-! ## Theorems -/

/-- C1: for every table name and every empty or whitespace-only condition,
`delete_data` returns the safety-guard failure envelope, leaves the database
unchanged, and opens no connection — the guard precedes any backend access
and cannot be bypassed. -/
theorem delete_blank_condition_guard (table_name condition : String)
    (db : SqliteDB) (h : pyStrip condition = "") :
    delete_data table_name condition db =
      { result := .ok (.obj [("success", .bool false),
          ("message", .str deleteGuardMessage)]),
        db := db, opened := 0, closed := 0 } := by
  have hblank : (pyStrip condition).isEmpty = true := by
    rw [h]; rfl
  simp [delete_data, hblank]

theorem delete_blank_condition_guard_witness :
    delete_data "users" "   " (create_database none) =
      { result := .ok (.obj [("success", .bool false),
          ("message", .str deleteGuardMessage)]),
        db := create_database none, opened := 0, closed := 0 } :=
  delete_blank_condition_guard "users" "   " (create_database none) (by decide)

/-- C8: for every table name and database state, `insert_data` with an empty
data mapping returns the failure envelope with the exact message
`No data provided for insertion.` and opens no connection. -/
theorem insert_empty_data_guard (table_name : String) (db : SqliteDB) :
    insert_data table_name [] db =
      { result := .ok (.obj [("success", .bool false),
          ("message", .str "No data provided for insertion.")]),
        db := db, opened := 0, closed := 0 } := by
  simp [insert_data]

/-- C2: whenever the requested tool is registered and its handler raises an
exception with message `cause`, `call_mcp_tool` returns exactly one response
whose payload is the failure envelope with message
`Failed to execute tool '<name>': <cause>`; the model's dispatcher is a
total function, so the exception never propagates past it. -/
theorem call_tool_catches_handler_exception (registry : Registry)
    (name : String) (arguments : PyVal) (tool : Handler) (cause : String)
    (hfound : registry.lookup name = some tool)
    (hexc : tool arguments = .error cause) :
    call_mcp_tool registry name arguments =
      ([⟨"text", pyDumps (.obj [("success", .bool false),
          ("message", .str ("Failed to execute tool '" ++ name ++ "': " ++ cause))])⟩],
       [name]) := by
  simp [call_mcp_tool, hfound, hexc, execErrorPayload]

theorem call_tool_catches_handler_exception_witness :
    call_mcp_tool demoRegistry "query_db_table" (.obj []) =
      ([⟨"text", pyDumps (.obj [("success", .bool false),
          ("message", .str ("Failed to execute tool '" ++ "query_db_table" ++
            "': " ++ "boom"))])⟩],
       ["query_db_table"]) :=
  call_tool_catches_handler_exception demoRegistry "query_db_table" (.obj [])
    failingHandler "boom" rfl rfl

/-- C3: for every tool name absent from the registry, `call_mcp_tool`
returns exactly the failure response with message
`Tool '<name>' not implemented by this server.` (the name taken verbatim
from the request) and invokes no handler; the dispatcher returns normally,
so the connection stays usable. -/
theorem call_tool_unknown_tool_response (registry : Registry) (name : String)
    (arguments : PyVal) (h : registry.lookup name = none) :
    call_mcp_tool registry name arguments =
      ([⟨"text", pyDumps (.obj [("success", .bool false),
          ("message", .str ("Tool '" ++ name ++ "' not implemented by this server."))])⟩],
       []) := by
  simp [call_mcp_tool, h, notImplementedPayload]

theorem call_tool_unknown_tool_response_witness :
    call_mcp_tool demoRegistry "nonexistent_tool" (.obj []) =
      ([⟨"text", pyDumps (.obj [("success", .bool false),
          ("message", .str ("Tool '" ++ "nonexistent_tool" ++
            "' not implemented by this server."))])⟩],
       []) :=
  call_tool_unknown_tool_response demoRegistry "nonexistent_tool" (.obj []) rfl

/-- C7 (counterexample): the unknown-tool error response is serialized with
plain `json.dumps`, and that compact text differs from the `indent=2`
pretty-printing of the same payload — so not every `call_tool` response is
pretty-printed with 2-space indentation. -/
theorem error_response_not_pretty_printed :
    (call_mcp_tool demoRegistry "nonexistent_tool" (.obj [])).1 =
      [⟨"text", pyDumps (notImplementedPayload "nonexistent_tool")⟩] ∧
    pyDumps (notImplementedPayload "nonexistent_tool") ≠
      pyDumpsIndent2 (notImplementedPayload "nonexistent_tool") := by
  constructor
  · rfl
  · decide

/-- C7 (amended): every `call_tool` response is a single text block holding
a JSON-encoded result; successful handler results are pretty-printed with
2-space indentation, while both error payloads (handler exception and
unknown tool) are compact-encoded. -/
theorem call_tool_single_block_encoding (registry : Registry) (name : String)
    (arguments : PyVal) :
    (∃ t, (call_mcp_tool registry name arguments).1 = [⟨"text", t⟩]) ∧
    (∀ tool resp, registry.lookup name = some tool → tool arguments = .ok resp →
      (call_mcp_tool registry name arguments).1 = [⟨"text", pyDumpsIndent2 resp⟩]) ∧
    (∀ tool cause, registry.lookup name = some tool → tool arguments = .error cause →
      (call_mcp_tool registry name arguments).1 =
        [⟨"text", pyDumps (execErrorPayload name cause)⟩]) ∧
    (registry.lookup name = none →
      (call_mcp_tool registry name arguments).1 =
        [⟨"text", pyDumps (notImplementedPayload name)⟩]) := by
  unfold call_mcp_tool
  refine ⟨?_, ?_, ?_, ?_⟩
  · cases hl : registry.lookup name with
    | none => exact ⟨pyDumps (notImplementedPayload name), by simp [hl]⟩
    | some tool =>
      cases hr : tool arguments with
      | ok resp => exact ⟨pyDumpsIndent2 resp, by simp [hl, hr]⟩
      | error e => exact ⟨pyDumps (execErrorPayload name e), by simp [hl, hr]⟩
  · intro tool resp hl hr
    simp [hl, hr]
  · intro tool cause hl hr
    simp [hl, hr]
  · intro hl
    simp [hl]

theorem call_tool_single_block_encoding_witness :
    (call_mcp_tool demoRegistry "list_db_tables" (.obj [])).1 =
      [⟨"text", pyDumpsIndent2 (.obj [("success", .bool true),
        ("message", .str "ok")])⟩] :=
  (call_tool_single_block_encoding demoRegistry "list_db_tables" (.obj [])).2.1
    okHandler (.obj [("success", .bool true), ("message", .str "ok")]) rfl rfl

/-- Whether a call's returned value is the uniform ToolInvocationResult
envelope: a returned (not raised) dictionary starting with a boolean
`success` and a string `message`. -/
def isEnvelope : Except String PyVal → Bool
  | .ok (.obj (("success", .bool _) :: ("message", .str _) :: _)) => true
  | _ => false

/-- C4 (counterexample): `get_table_schema` on an absent table does not
return an envelope — it raises `ValueError`, which only the dispatch layer
converts into a failure envelope. -/
theorem get_table_schema_raises_counterexample :
    (get_table_schema "missing" (create_database none)).result =
      .error ("Table '" ++ "missing" ++ "' not found or no schema information.") ∧
    isEnvelope (get_table_schema "missing" (create_database none)).result = false := by
  constructor
  · rfl
  · rfl

/-- C4 (amended): `list_db_tables`, `insert_data` and `delete_data` return
the uniform success/failure envelope on every input, including every failure
path; `get_table_schema` and `query_db_table` instead raise `ValueError` on
failure and return non-envelope values on success. -/
theorem three_backend_ops_return_envelope :
    (∀ p fault db, isEnvelope (list_db_tables p fault db).result = true) ∧
    (∀ t data db, isEnvelope (insert_data t data db).result = true) ∧
    (∀ t c db, isEnvelope (delete_data t c db).result = true) := by
  refine ⟨?_, ?_, ?_⟩
  · intro p fault db
    cases fault <;> rfl
  · intro t data db
    unfold insert_data
    split
    · rfl
    · split <;> rfl
  · intro t c db
    unfold delete_data
    split
    · rfl
    · split <;> rfl

/-- C5: the discovery response advertises one descriptor per registered
tool, whose names are exactly the registry keys in registration order, and
a repeated discovery call — run on the registry state the first call leaves
behind — returns the identical response. -/
theorem list_tools_matches_registry :
    list_mcp_tools.map McpTool.name = ADK_DB_TOOLS.map Prod.fst ∧
    list_mcp_tools.length = ADK_DB_TOOLS.length ∧
    (list_mcp_tools_st ((list_mcp_tools_st ADK_DB_TOOLS).2)).1 = list_mcp_tools := by
  refine ⟨by decide, by decide, by decide⟩

/-- C6: bootstrapping a store that does not yet exist seeds exactly 2 users
and 3 todos, of which exactly 2 satisfy `completed = 0` (as observed through
`query_db_table` itself); bootstrapping an existing store changes nothing. -/
theorem bootstrap_seeds_and_existing_store_untouched :
    tableRowCount (create_database none) "users" = some 2 ∧
    tableRowCount (create_database none) "todos" = some 3 ∧
    resultRowCount (query_db_table "todos" "*" "completed = 0"
      (create_database none)).result = some 2 ∧
    (∀ db, create_database (some db) = db) := by
  refine ⟨by decide, by decide, by decide, fun db => rfl⟩

/-- C9: evaluating `list_db_tables` on the path where the `SELECT` raises an
`sqlite3.Error` (e.g. a locked database): the connection opened at the start
of the call is never closed — the `except` branches return without reaching
`conn.close()`, contradicting the guaranteed-release claim. -/
theorem list_db_tables_fault_leaks_connection :
    (list_db_tables "any" (some "database is locked") (create_database none)).opened = 1 ∧
    (list_db_tables "any" (some "database is locked") (create_database none)).closed = 0 :=
  ⟨rfl, rfl⟩

/-- C10: `list_db_tables` never reads `dummy_param` — for any two values of
it, the same fault behaviour and database state, the calls agree exactly
(result, final state and connection counts). -/
theorem list_db_tables_ignores_dummy_param (p q : String)
    (fault : Option String) (db : SqliteDB) :
    list_db_tables p fault db = list_db_tables q fault db :=
  rfl

end AdkMcp
